import Mathlib

/-!
# Verification of the consul-rust client library

Shallow embedding of the `readysettech/consul-rust` repository.

The repository sources under verification are `src/agent.rs` and
`src/catalog.rs`: endpoint modules that call a shared request/response
transport (`request::get` and `request::put`).  The transport itself
(request builder, executor, option/metadata types and the error taxonomy)
is not part of the source tree available here, so it is modelled from the
specification; every definition below says in its doc comment whether it
is translated from the source or modelled from the spec.

HTTP is embedded by passing an explicit `Transport` function
(`Request → Except ConsulError HttpResponse`): the request builder produces
a `Request` value, the transport function stands for the single HTTP round
trip, and the executor classifies and decodes the response.  JSON bodies
are a small inductive `Json`; generic serde (de)serialization is embedded
by parameterizing over a `Json → Option T` decoder, exactly as the Rust
`get`/`put` are generic over `T: DeserializeOwned`.
-/

namespace Consul

/-- String-keyed map, standing for Rust `HashMap<String, String>`.
Represented as an association list whose `insertKV` keeps keys unique. -/
abbrev SMap := List (String × String)

/-- `HashMap::insert`: bind `k` to `v`, replacing any previous binding. -/
def SMap.insertKV (m : SMap) (k v : String) : SMap :=
  (k, v) :: m.filter (fun p => p.1 ≠ k)

/-- `HashMap::get`: look up the value bound to key `k`. -/
def SMap.lookupKey (m : SMap) (k : String) : Option String :=
  (m.find? (fun p => p.1 == k)).map Prod.snd

/-- Value of a decimal digit character. -/
def digitVal (c : Char) : Option Nat :=
  if c.isDigit then some (c.toNat - 48) else none

/-- Accumulating core of the decimal parser. -/
def parseNatCore : List Char → Nat → Option Nat
  | [], acc => some acc
  | c :: cs, acc =>
    match digitVal c with
    | some d => parseNatCore cs (acc * 10 + d)
    | none => none

/-- Parse a non-empty all-digit string as a natural number (used for the
`X-Consul-Index` style headers). -/
def parseNat (s : String) : Option Nat :=
  match s.data with
  | [] => none
  | cs => parseNatCore cs 0

/-- Minimal JSON value type: the wire format of request and response
bodies. -/
inductive Json where
  | null
  | bool (b : Bool)
  | num (n : Nat)
  | str (s : String)
  | arr (elems : List Json)
  | obj (fields : List (String × Json))

/-- Modelled from the spec: Transport Config (`request.rs` is not under
`src/`) — immutable connection settings `{address, scheme, datacenter,
token, http_timeout}`, shared read-only by every call. -/
structure Config where
  address : String
  scheme : String
  datacenter : Option String
  token : Option String
  http_timeout : Nat

/-- Modelled from the spec: Query Options — consistency mode, blocking-wait
parameters, token override, datacenter override, passed per read call. -/
structure QueryOptions where
  datacenter : Option String
  allow_stale : Bool
  require_consistent : Bool
  wait_index : Nat
  wait_time : Option Nat
  token : Option String

/-- Modelled from the spec: Write Options — token override and datacenter
override, passed per write call. -/
structure WriteOptions where
  datacenter : Option String
  token : Option String

/-- Modelled from the spec: Query Meta `{last_index, known_leader,
last_contact}`, derived from response headers. -/
structure QueryMeta where
  last_index : Nat
  known_leader : Bool
  last_contact : Nat
deriving DecidableEq

/-- Modelled from the spec: Write Meta `{request_time}`, the measured
duration of the single HTTP round trip. -/
structure WriteMeta where
  request_time : Nat
deriving DecidableEq

/-- Modelled from the spec: the error taxonomy of section 7.  `ApiError`
carries the HTTP status and the response body. -/
inductive ConsulError where
  | InvalidOptions
  | TransportError (cause : String)
  | ApiError (status : Nat) (body : Json)
  | DecodeError

/-- HTTP method of a built request. -/
inductive Method where
  | GET
  | PUT
deriving DecidableEq

/-- Modelled from the spec: the request description the Request Builder
produces — URL path, merged query string, auth token header, optional
JSON body.  Pure data, no I/O. -/
structure Request where
  method : Method
  path : String
  query : SMap
  token : Option String
  body : Option Json

/-- One HTTP response as the transport reports it: status, headers, JSON
body, and the measured elapsed time of the round trip. -/
structure HttpResponse where
  status : Nat
  headers : SMap
  body : Json
  elapsed : Nat

/-- The single HTTP round trip: either a response or a transport-level
failure.  Endpoint behavior is quantified over this function, so theorems
about it hold for every possible network behavior. -/
abbrev Transport := Request → Except ConsulError HttpResponse

/-- Modelled from the spec (4.1): the option-derived query parameters of a
read — `index`/`wait` only when `wait_index > 0`, `stale` when
`allow_stale`, `consistent` when `require_consistent`, and `dc` from the
options falling back to the Config datacenter. -/
def optionQueryParams (cfg : Config) (o : QueryOptions) : SMap :=
  (if 0 < o.wait_index then
      ("index", toString o.wait_index) ::
        (match o.wait_time with
         | some w => [("wait", toString w)]
         | none => [])
    else []) ++
  (if o.allow_stale then [("stale", "")] else []) ++
  (if o.require_consistent then [("consistent", "")] else []) ++
  (match o.datacenter with
   | some dc => [("dc", dc)]
   | none =>
     match cfg.datacenter with
     | some dc => [("dc", dc)]
     | none => [])

/-- Modelled from the spec (4.1): the option-derived query parameters of a
write — datacenter resolution only, no blocking or consistency keys. -/
def writeOptionParams (cfg : Config) (o : WriteOptions) : SMap :=
  match o.datacenter with
  | some dc => [("dc", dc)]
  | none =>
    match cfg.datacenter with
    | some dc => [("dc", dc)]
    | none => []

/-- Modelled from the spec (4.1): merge caller params with option-derived
params; on key collision the option-derived value wins. -/
def mergeParams (optDerived callerParams : SMap) : SMap :=
  optDerived ++ callerParams.filter (fun p => (SMap.lookupKey optDerived p.1).isNone)

/-- Modelled from the spec (4.1, 4.3): the Request Builder for reads.
Rejects mutually exclusive consistency modes with `InvalidOptions` before
any I/O; otherwise assembles the GET request with merged query parameters
and token fallback. -/
def buildQueryRequest (path : String) (cfg : Config) (params : SMap)
    (opts : Option QueryOptions) : Except ConsulError Request :=
  match opts with
  | none =>
    .ok { method := .GET, path := path, query := params, token := cfg.token, body := none }
  | some o =>
    if o.allow_stale && o.require_consistent then
      .error .InvalidOptions
    else
      .ok { method := .GET, path := path,
            query := mergeParams (optionQueryParams cfg o) params,
            token := o.token.orElse (fun _ => cfg.token), body := none }

/-- Modelled from the spec (4.1): the Request Builder for writes.  Write
options cannot be rejected (no consistency flags), so this is total. -/
def buildWriteRequest (path : String) (body : Option Json) (cfg : Config)
    (params : SMap) (opts : Option WriteOptions) : Request :=
  match opts with
  | none =>
    { method := .PUT, path := path, query := params, token := cfg.token, body := body }
  | some o =>
    { method := .PUT, path := path,
      query := mergeParams (writeOptionParams cfg o) params,
      token := o.token.orElse (fun _ => cfg.token), body := body }

/-- Modelled from the spec (6): Query Meta extracted from the response
headers `X-Consul-Index`, `X-Consul-Knownleader`, `X-Consul-Lastcontact`. -/
def queryMetaOf (resp : HttpResponse) : QueryMeta :=
  { last_index := ((SMap.lookupKey resp.headers "X-Consul-Index").bind parseNat).getD 0
  , known_leader :=
      match SMap.lookupKey resp.headers "X-Consul-Knownleader" with
      | some s => s == "true"
      | none => false
  , last_contact := ((SMap.lookupKey resp.headers "X-Consul-Lastcontact").bind parseNat).getD 0 }

/-- Modelled from the spec (4.2): executor classification of a read
response — 2xx decodes the body and extracts header metadata, other
statuses fail with `ApiError`, schema mismatch fails with `DecodeError`. -/
def classifyRead {T : Type} (decode : Json → Option T) (resp : HttpResponse) :
    Except ConsulError (T × QueryMeta) :=
  if 200 ≤ resp.status ∧ resp.status < 300 then
    match decode resp.body with
    | some v => .ok (v, queryMetaOf resp)
    | none => .error .DecodeError
  else
    .error (.ApiError resp.status resp.body)

/-- Modelled from the spec (4.2): executor classification of a write
response — like reads, but the metadata is the measured elapsed time. -/
def classifyWrite {T : Type} (decode : Json → Option T) (resp : HttpResponse) :
    Except ConsulError (T × WriteMeta) :=
  if 200 ≤ resp.status ∧ resp.status < 300 then
    match decode resp.body with
    | some v => .ok (v, { request_time := resp.elapsed })
    | none => .error .DecodeError
  else
    .error (.ApiError resp.status resp.body)

/-- Propagate a transport-level failure of a read, else classify. -/
def handleRead {T : Type} (decode : Json → Option T)
    (r : Except ConsulError HttpResponse) : Except ConsulError (T × QueryMeta) :=
  match r with
  | .error e => .error e
  | .ok resp => classifyRead decode resp

/-- Propagate a transport-level failure of a write, else classify. -/
def handleWrite {T : Type} (decode : Json → Option T)
    (r : Except ConsulError HttpResponse) : Except ConsulError (T × WriteMeta) :=
  match r with
  | .error e => .error e
  | .ok resp => classifyWrite decode resp

/-- Modelled from the spec (6): the read operation `request::get` — build
the request (possibly failing with `InvalidOptions` before any I/O),
perform one round trip, classify and decode. -/
def getCall {T : Type} (decode : Json → Option T) (path : String) (cfg : Config)
    (params : SMap) (opts : Option QueryOptions) (transport : Transport) :
    Except ConsulError (T × QueryMeta) :=
  match buildQueryRequest path cfg params opts with
  | .error e => .error e
  | .ok req => handleRead decode (transport req)

/-- Modelled from the spec (6): the write operation `request::put`. -/
def putCall {T : Type} (decode : Json → Option T) (path : String) (body : Option Json)
    (cfg : Config) (params : SMap) (opts : Option WriteOptions) (transport : Transport) :
    Except ConsulError (T × WriteMeta) :=
  handleWrite decode (transport (buildWriteRequest path body cfg params opts))

/-- Modelled from the spec (4.2): for write-only endpoints the expected
shape is `()` and an empty body decodes to unit. -/
def decodeUnit : Json → Option Unit
  | .null => some ()
  | _ => none

/-- From `src/agent.rs`: the `AgentCheck` record (all fields default). -/
structure AgentCheck where
  Node : String
  CheckID : String
  Name : String
  Status : String
  Notes : String
  Output : String
  ServiceID : String
  ServiceName : String

/-- From `src/agent.rs`: the `AgentMember` record (all fields default). -/
structure AgentMember where
  Name : String
  Addr : String
  Port : Nat
  Tags : SMap
  pubStatus : Nat
  ProtocolMin : Nat
  ProtocolMax : Nat
  ProtocolCur : Nat
  DelegateMin : Nat
  DelegateMax : Nat
  DelegateCur : Nat

/-- From `src/agent.rs`: the `AgentService` record. -/
structure AgentService where
  ID : String
  Service : String
  Tags : Option (List String)
  Port : Nat
  Address : String
  EnableTagOverride : Bool
  CreateIndex : Nat
  ModifyIndex : Nat

/-- From `src/catalog.rs`: the `Node` record. -/
structure Node where
  ID : String
  Node : String
  Address : String
  Datacenter : String
  TaggedAddresses : SMap
  Meta : SMap
  CreateIndex : Nat
  ModifyIndex : Nat

/-- From `src/catalog.rs`: the `CatalogRegistration` record. -/
structure CatalogRegistration where
  ID : String
  Node : String
  Address : String
  TaggedAddresses : SMap
  NodeMeta : SMap
  Datacenter : String
  Service : Option AgentService
  Check : Option AgentCheck
  SkipNodeUpdate : Bool

/-- Serde `#[serde(default)]` string field: missing fields take the default
value, a present field must be a JSON string. -/
def jsonStrField (fs : List (String × Json)) (k : String) : Option String :=
  match (fs.find? (fun p => p.1 == k)).map Prod.snd with
  | none => some ""
  | some (.str s) => some s
  | some _ => none

/-- Serde `#[serde(default)]` numeric field: missing fields default to 0. -/
def jsonNatField (fs : List (String × Json)) (k : String) : Option Nat :=
  match (fs.find? (fun p => p.1 == k)).map Prod.snd with
  | none => some 0
  | some (.num n) => some n
  | some _ => none

/-- Decode a JSON object whose values are all strings into an `SMap`. -/
def jsonStrEntries : List (String × Json) → Option SMap
  | [] => some []
  | (k, .str v) :: rest => (jsonStrEntries rest).map (fun m => (k, v) :: m)
  | _ => none

/-- Serde `#[serde(default)]` `HashMap<String, String>` field: missing
fields default to the empty map. -/
def jsonMapField (fs : List (String × Json)) (k : String) : Option SMap :=
  match (fs.find? (fun p => p.1 == k)).map Prod.snd with
  | none => some []
  | some (.obj entries) => jsonStrEntries entries
  | some _ => none

/-- Serde deserialization of `AgentMember`, following the design note
"missing = default value per field": the body must be a JSON object — a
JSON array (or any non-object) fails to decode. -/
def decodeAgentMember : Json → Option AgentMember
  | .obj fs => do
    let name ← jsonStrField fs "Name"
    let addr ← jsonStrField fs "Addr"
    let port ← jsonNatField fs "Port"
    let tags ← jsonMapField fs "Tags"
    let pubStatus ← jsonNatField fs "pubStatus"
    let protoMin ← jsonNatField fs "ProtocolMin"
    let protoMax ← jsonNatField fs "ProtocolMax"
    let protoCur ← jsonNatField fs "ProtocolCur"
    let delMin ← jsonNatField fs "DelegateMin"
    let delMax ← jsonNatField fs "DelegateMax"
    let delCur ← jsonNatField fs "DelegateCur"
    some { Name := name, Addr := addr, Port := port, Tags := tags, pubStatus := pubStatus,
           ProtocolMin := protoMin, ProtocolMax := protoMax, ProtocolCur := protoCur,
           DelegateMin := delMin, DelegateMax := delMax, DelegateCur := delCur }
  | _ => none

/-- From `src/agent.rs` `Agent::checks` for `Client`:
`get("/v1/agent/checks", &self.config, HashMap::new(), None).map(|x| x.0)`.
`decode` embeds the generic serde deserializer for
`HashMap<String, AgentCheck>`. -/
def agentChecks {T : Type} (decode : Json → Option T) (cfg : Config)
    (transport : Transport) : Except ConsulError T :=
  (getCall decode "/v1/agent/checks" cfg [] none transport).map Prod.fst

/-- From `src/agent.rs` `Agent::members` for `Client`: params get
`"wan" ↦ "1"` only when `wan`, then
`get("/v1/agent/members", &self.config, params, None).map(|x| x.0)`,
decoding the body as a single `AgentMember`. -/
def agentMembers (wan : Bool) (cfg : Config) (transport : Transport) :
    Except ConsulError AgentMember :=
  let params : SMap := if wan then SMap.insertKV [] "wan" "1" else []
  (getCall decodeAgentMember "/v1/agent/members" cfg params none transport).map Prod.fst

/-- From `src/agent.rs` `Agent::reload` for `Client`. -/
def agentReload (cfg : Config) (transport : Transport) : Except ConsulError Unit :=
  (putCall decodeUnit "/v1/agent/reload" none cfg [] none transport).map Prod.fst

/-- From `src/agent.rs` `Agent::maintenance_mode` for `Client`: params get
`"enabled" ↦ "true"/"false"` and, when a reason is given, `"reason" ↦ r`;
then `put("/v1/agent/maintenance", None, &self.config, params, None)`. -/
def agentMaintenanceMode (enable : Bool) (reason : Option String) (cfg : Config)
    (transport : Transport) : Except ConsulError Unit :=
  let enableStr := if enable then "true" else "false"
  let params := SMap.insertKV [] "enabled" enableStr
  let params :=
    match reason with
    | some r => SMap.insertKV params "reason" r
    | none => params
  (putCall decodeUnit "/v1/agent/maintenance" none cfg params none transport).map Prod.fst

/-- From `src/agent.rs` `Agent::join` for `Client`: params get
`"wan" ↦ "true"` only when `wan`; the path is
`format!("/v1/agent/join/{}", address)`. -/
def agentJoin (address : String) (wan : Bool) (cfg : Config)
    (transport : Transport) : Except ConsulError Unit :=
  let params : SMap := if wan then SMap.insertKV [] "wan" "true" else []
  let path := "/v1/agent/join/" ++ address
  (putCall decodeUnit path none cfg params none transport).map Prod.fst

/-- From `src/agent.rs` `Agent::leave` for `Client`. -/
def agentLeave (cfg : Config) (transport : Transport) : Except ConsulError Unit :=
  (putCall decodeUnit "/v1/agent/leave" none cfg [] none transport).map Prod.fst

/-- From `src/agent.rs` `Agent::force_leave` for `Client`. -/
def agentForceLeave (cfg : Config) (transport : Transport) : Except ConsulError Unit :=
  (putCall decodeUnit "/v1/agent/force-leave" none cfg [] none transport).map Prod.fst

/-- From `src/catalog.rs` `Catalog::register` for `Client`:
`put("/v1/session/create", Some(reg), &self.config, HashMap::new(), q)`,
returning the `((), WriteMeta)` pair unchanged.  `encode` embeds the serde
serializer for `CatalogRegistration`. -/
def catalogRegister (encode : CatalogRegistration → Json) (reg : CatalogRegistration)
    (q : Option WriteOptions) (cfg : Config) (transport : Transport) :
    Except ConsulError (Unit × WriteMeta) :=
  putCall decodeUnit "/v1/session/create" (some (encode reg)) cfg [] q transport

/-- From `src/catalog.rs` `Catalog::datacenters` for `Client`:
`get("/v1/catalog/datacenters", &self.config, HashMap::new(), None)`,
returning the `(Vec<String>, QueryMeta)` pair unchanged. -/
def catalogDatacenters (decode : Json → Option (List String)) (cfg : Config)
    (transport : Transport) : Except ConsulError (List String × QueryMeta) :=
  getCall decode "/v1/catalog/datacenters" cfg [] none transport

/-- From `src/catalog.rs` `Catalog::nodes` for `Client`:
`get("/v1/catalog/nodes", &self.config, HashMap::new(), q)`, returning the
`(Vec<Node>, QueryMeta)` pair unchanged. -/
def catalogNodes (decode : Json → Option (List Node)) (q : Option QueryOptions)
    (cfg : Config) (transport : Transport) :
    Except ConsulError (List Node × QueryMeta) :=
  getCall decode "/v1/catalog/nodes" cfg [] q transport

/-- A request that carries only Transport Config defaults: the token is the
Config token and no datacenter override, consistency mode, or blocking-wait
query parameter is present. -/
def Request.usesDefaults (r : Request) (cfg : Config) : Prop :=
  r.token = cfg.token ∧
  SMap.lookupKey r.query "index" = none ∧
  SMap.lookupKey r.query "wait" = none ∧
  SMap.lookupKey r.query "stale" = none ∧
  SMap.lookupKey r.query "consistent" = none ∧
  SMap.lookupKey r.query "dc" = none

/-- Concrete Transport Config used by the closed witness theorems. -/
def cfgW : Config :=
  { address := "127.0.0.1:8500", scheme := "http", datacenter := none, token := none,
    http_timeout := 30 }

/-- Query Options with both consistency modes set (the invalid combination). -/
def optsBoth : QueryOptions :=
  { datacenter := none, allow_stale := true, require_consistent := true, wait_index := 0,
    wait_time := none, token := none }

/-- Empty 200 response with index header 7. -/
def respOk : HttpResponse :=
  { status := 200, headers := [("X-Consul-Index", "7")], body := Json.null, elapsed := 3 }

/-- Transport answering every request with `respOk`. -/
def transportOk : Transport := fun _ => .ok respOk

/-- Empty 200 response with index header 1. -/
def respIdx1 : HttpResponse :=
  { status := 200, headers := [("X-Consul-Index", "1")], body := Json.null, elapsed := 0 }

/-- Empty 200 response with index header 2. -/
def respIdx2 : HttpResponse :=
  { status := 200, headers := [("X-Consul-Index", "2")], body := Json.null, elapsed := 0 }

/-- 200 response whose body is an empty JSON list, with index header 7. -/
def respNodes : HttpResponse :=
  { status := 200, headers := [("X-Consul-Index", "7")], body := Json.arr [], elapsed := 1 }

/-- Transport answering every request with `respNodes`. -/
def transportNodes : Transport := fun _ => .ok respNodes

/-- 200 response whose body is a JSON array of one member object. -/
def respArr : HttpResponse :=
  { status := 200, headers := [], body := Json.arr [Json.obj []], elapsed := 1 }

/-- Transport answering every request with `respArr`. -/
def transportArr : Transport := fun _ => .ok respArr

/-- Query Options carrying only a datacenter override. -/
def oW : QueryOptions :=
  { datacenter := some "west", allow_stale := false, require_consistent := false,
    wait_index := 0, wait_time := none, token := none }

/-- Caller params colliding with the option-derived `dc` key. -/
def paramsW : SMap := [("dc", "caller")]

/-- The request the builder produces for `paramsW` under `oW`: the
option-derived `dc` value has displaced the caller value. -/
def reqW : Request :=
  { method := Method.GET, path := "/v1/catalog/nodes", query := [("dc", "west")],
    token := none, body := none }

/-- Helper: a key bound in the left map is bound to the same value in the
concatenation. -/
theorem lookupKey_append_of_some (l1 l2 : SMap) (k v : String)
    (h : SMap.lookupKey l1 k = some v) :
    SMap.lookupKey (l1 ++ l2) k = some v := by
  induction l1 with
  | nil => simp [SMap.lookupKey, List.find?] at h
  | cons p rest ih =>
    unfold SMap.lookupKey at h ⊢
    rw [List.cons_append]
    rw [List.find?_cons] at h
    rw [List.find?_cons]
    cases hk : (p.1 == k) with
    | true =>
      simp only [hk] at h ⊢
      exact h
    | false =>
      simp only [hk] at h ⊢
      exact ih h

/-- Helper: executor classification of a 200 read response that decodes. -/
theorem classifyRead_success {T : Type} (decode : Json → Option T) (resp : HttpResponse)
    (v : T) (hst : resp.status = 200) (hd : decode resp.body = some v) :
    classifyRead decode resp = .ok (v, queryMetaOf resp) := by
  simp [classifyRead, hst, hd]

/-- Helper: executor classification of a 200 write response that decodes. -/
theorem classifyWrite_success {T : Type} (decode : Json → Option T) (resp : HttpResponse)
    (v : T) (hst : resp.status = 200) (hd : decode resp.body = some v) :
    classifyWrite decode resp = .ok (v, { request_time := resp.elapsed }) := by
  simp [classifyWrite, hst, hd]

/-- C1: for every `CatalogRegistration` and every optional `WriteOptions`,
`Catalog::register` issues its write to the path `"/v1/session/create"`
(not a catalog registration path) with the registration as the JSON body
and an empty extra-params map, returning the `((), WriteMeta)` pair from
the transport unchanged. -/
theorem catalog_register_targets_session_create (encode : CatalogRegistration → Json)
    (reg : CatalogRegistration) (q : Option WriteOptions) (cfg : Config)
    (transport : Transport) :
    (buildWriteRequest "/v1/session/create" (some (encode reg)) cfg [] q).path
        = "/v1/session/create" ∧
    (buildWriteRequest "/v1/session/create" (some (encode reg)) cfg [] q).body
        = some (encode reg) ∧
    (buildWriteRequest "/v1/session/create" (some (encode reg)) cfg [] q).method
        = Method.PUT ∧
    catalogRegister encode reg q cfg transport =
      handleWrite decodeUnit
        (transport (buildWriteRequest "/v1/session/create" (some (encode reg)) cfg [] q)) := by
  refine ⟨?_, ?_, ?_, rfl⟩ <;> cases q <;> rfl

/-- C2: for all Query Options in which both `allow_stale` and
`require_consistent` are set, the read operation fails with
`InvalidOptions` for every path, params map, and transport — in particular
the result does not depend on the transport, so no I/O is performed. -/
theorem read_rejects_conflicting_consistency {T : Type} (decode : Json → Option T)
    (path : String) (cfg : Config) (params : SMap) (o : QueryOptions)
    (hs : o.allow_stale = true) (hc : o.require_consistent = true)
    (transport : Transport) :
    getCall decode path cfg params (some o) transport
      = .error ConsulError.InvalidOptions := by
  simp [getCall, buildQueryRequest, hs, hc]

/-- Witness for C2 at a concrete invalid option pair and a transport that
would happily answer. -/
theorem read_rejects_conflicting_consistency_witness :
    optsBoth.allow_stale = true ∧ optsBoth.require_consistent = true ∧
    getCall decodeUnit "/v1/agent/checks" cfgW [] (some optsBoth) transportOk
      = .error ConsulError.InvalidOptions :=
  ⟨rfl, rfl,
    read_rejects_conflicting_consistency decodeUnit "/v1/agent/checks" cfgW [] optsBoth
      rfl rfl transportOk⟩

/-- C7: for every address and wan flag, `Agent::join` issues its write to
exactly the path `"/v1/agent/join/" ++ address`, with no body, and with
params containing `"wan" ↦ "true"` when `wan` is true and no `"wan"` key
otherwise. -/
theorem agent_join_path_and_params (address : String) (wan : Bool) (cfg : Config)
    (transport : Transport) :
    agentJoin address wan cfg transport =
      (handleWrite decodeUnit (transport
        { method := Method.PUT,
          path := "/v1/agent/join/" ++ address,
          query := if wan then [("wan", "true")] else [],
          token := cfg.token,
          body := none })).map Prod.fst ∧
    SMap.lookupKey (if wan then [("wan", "true")] else ([] : SMap)) "wan"
      = (if wan then some "true" else none) := by
  cases wan <;> exact ⟨rfl, rfl⟩

/-- C8: for every wan flag, `Agent::members` issues a read to
`"/v1/agent/members"` whose params map is exactly `[("wan", "1")]` when
`wan` is true and exactly empty when it is false. -/
theorem agent_members_request_shape (wan : Bool) (cfg : Config) (transport : Transport) :
    agentMembers wan cfg transport =
      (handleRead decodeAgentMember (transport
        { method := Method.GET,
          path := "/v1/agent/members",
          query := if wan then [("wan", "1")] else [],
          token := cfg.token,
          body := none })).map Prod.fst := by
  cases wan <;> rfl

/-- C3 counterexample: two transports answering with the same body but
different `X-Consul-Index` headers produce different `(value, metadata)`
pairs at the transport layer, yet `Agent::checks` returns identical
results — the caller of `Agent::checks` does not receive the metadata. -/
theorem agent_read_drops_metadata_cex :
    queryMetaOf respIdx1 ≠ queryMetaOf respIdx2 ∧
    getCall decodeUnit "/v1/agent/checks" cfgW [] none (fun _ => .ok respIdx1)
      = .ok ((), queryMetaOf respIdx1) ∧
    getCall decodeUnit "/v1/agent/checks" cfgW [] none (fun _ => .ok respIdx2)
      = .ok ((), queryMetaOf respIdx2) ∧
    agentChecks decodeUnit cfgW (fun _ => .ok respIdx1)
      = agentChecks decodeUnit cfgW (fun _ => .ok respIdx2) :=
  ⟨by decide, rfl, rfl, rfl⟩

/-- C3 amended: every successful read produces exactly one
`(value, metadata)` pair at the transport layer; `Catalog::datacenters`
returns that pair to its caller unchanged, while the Agent operations
(e.g. `Agent::checks`) discard the metadata with `.map(|x| x.0)` and
return only the decoded value. -/
theorem read_metadata_returned_alongside_value {T : Type} (decT : Json → Option T)
    (decS : Json → Option (List String)) (cfg : Config) (transport : Transport)
    (resp : HttpResponse) (v : T) (vs : List String)
    (h1 : transport
        { method := Method.GET, path := "/v1/catalog/datacenters", query := [],
          token := cfg.token, body := none } = .ok resp)
    (h2 : transport
        { method := Method.GET, path := "/v1/agent/checks", query := [],
          token := cfg.token, body := none } = .ok resp)
    (hst : resp.status = 200) (hdS : decS resp.body = some vs)
    (hdT : decT resp.body = some v) :
    catalogDatacenters decS cfg transport = .ok (vs, queryMetaOf resp) ∧
    agentChecks decT cfg transport = .ok v := by
  refine ⟨?_, ?_⟩
  · have e1 : catalogDatacenters decS cfg transport
        = handleRead decS (transport
            { method := Method.GET, path := "/v1/catalog/datacenters", query := [],
              token := cfg.token, body := none }) := rfl
    rw [e1, h1]
    exact classifyRead_success decS resp vs hst hdS
  · have e2 : agentChecks decT cfg transport
        = (handleRead decT (transport
            { method := Method.GET, path := "/v1/agent/checks", query := [],
              token := cfg.token, body := none })).map Prod.fst := rfl
    rw [e2, h2]
    have hr : handleRead decT (Except.ok resp) = classifyRead decT resp := rfl
    have hc := classifyRead_success decT resp v hst hdT
    rw [hr, hc]
    rfl

/-- Witness for the amended C3 at a concrete transport and decoders. -/
theorem read_metadata_returned_alongside_value_witness :
    catalogDatacenters (fun _ => some ["dc1"]) cfgW transportOk
      = .ok (["dc1"], queryMetaOf respOk) ∧
    agentChecks decodeUnit cfgW transportOk = .ok () :=
  read_metadata_returned_alongside_value decodeUnit (fun _ => some ["dc1"]) cfgW
    transportOk respOk () ["dc1"] rfl rfl rfl rfl rfl

/-- C4: `Agent::maintenance_mode` writes to `"/v1/agent/maintenance"` with
no body; with `enable = true, reason = None` the params are exactly
`enabled ↦ "true"`; a reason adds `reason ↦ r`; `enable = false` maps
`enabled ↦ "false"`; and an empty 200 response yields `.ok ()`. -/
theorem maintenance_mode_request_shape (cfg : Config) :
    (∀ t : Transport, agentMaintenanceMode true none cfg t =
      (handleWrite decodeUnit (t
        { method := Method.PUT, path := "/v1/agent/maintenance",
          query := [("enabled", "true")], token := cfg.token,
          body := none })).map Prod.fst) ∧
    (∀ (enable : Bool) (r : String) (t : Transport),
      agentMaintenanceMode enable (some r) cfg t =
      (handleWrite decodeUnit (t
        { method := Method.PUT, path := "/v1/agent/maintenance",
          query := [("reason", r), ("enabled", if enable then "true" else "false")],
          token := cfg.token, body := none })).map Prod.fst) ∧
    (∀ t : Transport, agentMaintenanceMode false none cfg t =
      (handleWrite decodeUnit (t
        { method := Method.PUT, path := "/v1/agent/maintenance",
          query := [("enabled", "false")], token := cfg.token,
          body := none })).map Prod.fst) ∧
    (∀ (t : Transport) (resp : HttpResponse),
      t
        { method := Method.PUT, path := "/v1/agent/maintenance",
          query := [("enabled", "true")], token := cfg.token, body := none } = .ok resp →
      resp.status = 200 → resp.body = Json.null →
      agentMaintenanceMode true none cfg t = .ok ()) := by
  refine ⟨fun t => rfl, fun enable r t => rfl, fun t => rfl, ?_⟩
  intro t resp ht h200 hbody
  have e : agentMaintenanceMode true none cfg t =
      (handleWrite decodeUnit (t
        { method := Method.PUT, path := "/v1/agent/maintenance",
          query := [("enabled", "true")], token := cfg.token,
          body := none })).map Prod.fst := rfl
  rw [e, ht]
  have hr : handleWrite decodeUnit (Except.ok resp) = classifyWrite decodeUnit resp := rfl
  have hw := classifyWrite_success decodeUnit resp () h200 (by rw [hbody]; rfl)
  rw [hr, hw]
  rfl

/-- Witness for C4 against a concrete empty 200 response. -/
theorem maintenance_mode_request_shape_witness :
    agentMaintenanceMode true none cfgW transportOk = .ok () :=
  (maintenance_mode_request_shape cfgW).2.2.2 transportOk respOk rfl rfl rfl

/-- C5: a read of `"/v1/catalog/nodes"` with no options against a 200
response carrying index header `N` makes `Catalog::nodes` return the
decoded node list together with a `QueryMeta` whose `last_index` is `N`. -/
theorem catalog_nodes_header_index (decode : Json → Option (List Node)) (cfg : Config)
    (transport : Transport) (resp : HttpResponse) (nodes : List Node)
    (s : String) (n : Nat)
    (ht : transport
        { method := Method.GET, path := "/v1/catalog/nodes", query := [],
          token := cfg.token, body := none } = .ok resp)
    (hst : resp.status = 200) (hd : decode resp.body = some nodes)
    (hh : SMap.lookupKey resp.headers "X-Consul-Index" = some s)
    (hn : parseNat s = some n) :
    catalogNodes decode none cfg transport = .ok (nodes, queryMetaOf resp) ∧
    (queryMetaOf resp).last_index = n := by
  refine ⟨?_, ?_⟩
  · have e : catalogNodes decode none cfg transport
        = handleRead decode (transport
            { method := Method.GET, path := "/v1/catalog/nodes", query := [],
              token := cfg.token, body := none }) := rfl
    rw [e, ht]
    exact classifyRead_success decode resp nodes hst hd
  · simp [queryMetaOf, hh, hn]

/-- Witness for C5 with index header `"7"`. -/
theorem catalog_nodes_header_index_witness :
    catalogNodes (fun _ => some []) none cfgW transportNodes
      = .ok ([], queryMetaOf respNodes) ∧
    (queryMetaOf respNodes).last_index = 7 :=
  catalog_nodes_header_index (fun _ => some []) cfgW transportNodes respNodes [] "7" 7
    rfl rfl rfl rfl rfl

/-- C6: for all `(params, options)` pairs, whenever the Request Builder
derives one of the keys `index`, `wait`, `stale`, `consistent`, `dc` from
the options and that key also occurs in the caller-supplied params, the
built query string maps the key to the option-derived value. -/
theorem option_params_override_caller (cfg : Config) (o : QueryOptions) (params : SMap)
    (path : String) (k v : String)
    (hk : k ∈ ["index", "wait", "stale", "consistent", "dc"])
    (ho : SMap.lookupKey (optionQueryParams cfg o) k = some v)
    (hp : (SMap.lookupKey params k).isSome = true)
    (r : Request) (hr : buildQueryRequest path cfg params (some o) = .ok r) :
    SMap.lookupKey r.query k = some v := by
  simp only [buildQueryRequest] at hr
  by_cases hb : (o.allow_stale && o.require_consistent) = true
  · rw [if_pos hb] at hr
    exact absurd hr (by simp)
  · rw [if_neg hb] at hr
    injection hr with h2
    rw [← h2]
    exact lookupKey_append_of_some _ _ k v ho

/-- Witness for C6: the caller binds `dc ↦ "caller"` but the option-derived
`dc ↦ "west"` wins in the built request. -/
theorem option_params_override_caller_witness :
    SMap.lookupKey (optionQueryParams cfgW oW) "dc" = some "west" ∧
    (SMap.lookupKey paramsW "dc").isSome = true ∧
    SMap.lookupKey reqW.query "dc" = some "west" :=
  ⟨rfl, rfl,
    option_params_override_caller cfgW oW paramsW "/v1/catalog/nodes" "dc" "west"
      (by decide) rfl rfl reqW rfl⟩

/-- C9: every operation of the Agent trait (checks, members, reload,
maintenance_mode, join, leave, force_leave) and `Catalog::datacenters`
passes `None` as the per-call options: the single request each issues
carries the Config token and no `index`, `wait`, `stale`, `consistent`, or
`dc` query key — the Transport Config defaults always apply. -/
theorem ops_pass_no_options (cfg : Config) :
    (∃ r : Request, r.usesDefaults cfg ∧ ∀ (T : Type) (d : Json → Option T) (t : Transport),
        agentChecks d cfg t = (handleRead d (t r)).map Prod.fst) ∧
    (∀ wan : Bool, ∃ r : Request, r.usesDefaults cfg ∧ ∀ t : Transport,
        agentMembers wan cfg t = (handleRead decodeAgentMember (t r)).map Prod.fst) ∧
    (∃ r : Request, r.usesDefaults cfg ∧ ∀ t : Transport,
        agentReload cfg t = (handleWrite decodeUnit (t r)).map Prod.fst) ∧
    (∀ (enable : Bool) (reason : Option String), ∃ r : Request, r.usesDefaults cfg ∧
        ∀ t : Transport, agentMaintenanceMode enable reason cfg t
          = (handleWrite decodeUnit (t r)).map Prod.fst) ∧
    (∀ (address : String) (wan : Bool), ∃ r : Request, r.usesDefaults cfg ∧
        ∀ t : Transport, agentJoin address wan cfg t
          = (handleWrite decodeUnit (t r)).map Prod.fst) ∧
    (∃ r : Request, r.usesDefaults cfg ∧ ∀ t : Transport,
        agentLeave cfg t = (handleWrite decodeUnit (t r)).map Prod.fst) ∧
    (∃ r : Request, r.usesDefaults cfg ∧ ∀ t : Transport,
        agentForceLeave cfg t = (handleWrite decodeUnit (t r)).map Prod.fst) ∧
    (∀ d : Json → Option (List String), ∃ r : Request, r.usesDefaults cfg ∧
        ∀ t : Transport, catalogDatacenters d cfg t = handleRead d (t r)) := by
  refine ⟨?_, ?_, ?_, ?_, ?_, ?_, ?_, ?_⟩
  · exact ⟨⟨Method.GET, "/v1/agent/checks", [], cfg.token, none⟩,
      ⟨rfl, rfl, rfl, rfl, rfl, rfl⟩, fun T d t => rfl⟩
  · intro wan
    cases wan
    · exact ⟨⟨Method.GET, "/v1/agent/members", [], cfg.token, none⟩,
        ⟨rfl, rfl, rfl, rfl, rfl, rfl⟩, fun t => rfl⟩
    · exact ⟨⟨Method.GET, "/v1/agent/members", [("wan", "1")], cfg.token, none⟩,
        ⟨rfl, rfl, rfl, rfl, rfl, rfl⟩, fun t => rfl⟩
  · exact ⟨⟨Method.PUT, "/v1/agent/reload", [], cfg.token, none⟩,
      ⟨rfl, rfl, rfl, rfl, rfl, rfl⟩, fun t => rfl⟩
  · intro enable reason
    cases reason with
    | none =>
      exact ⟨⟨Method.PUT, "/v1/agent/maintenance",
          [("enabled", if enable then "true" else "false")], cfg.token, none⟩,
        ⟨rfl, rfl, rfl, rfl, rfl, rfl⟩, fun t => rfl⟩
    | some rs =>
      exact ⟨⟨Method.PUT, "/v1/agent/maintenance",
          [("reason", rs), ("enabled", if enable then "true" else "false")], cfg.token, none⟩,
        ⟨rfl, rfl, rfl, rfl, rfl, rfl⟩, fun t => rfl⟩
  · intro address wan
    cases wan
    · exact ⟨⟨Method.PUT, "/v1/agent/join/" ++ address, [], cfg.token, none⟩,
        ⟨rfl, rfl, rfl, rfl, rfl, rfl⟩, fun t => rfl⟩
    · exact ⟨⟨Method.PUT, "/v1/agent/join/" ++ address, [("wan", "true")], cfg.token, none⟩,
        ⟨rfl, rfl, rfl, rfl, rfl, rfl⟩, fun t => rfl⟩
  · exact ⟨⟨Method.PUT, "/v1/agent/leave", [], cfg.token, none⟩,
      ⟨rfl, rfl, rfl, rfl, rfl, rfl⟩, fun t => rfl⟩
  · exact ⟨⟨Method.PUT, "/v1/agent/force-leave", [], cfg.token, none⟩,
      ⟨rfl, rfl, rfl, rfl, rfl, rfl⟩, fun t => rfl⟩
  · intro d
    exact ⟨⟨Method.GET, "/v1/catalog/datacenters", [], cfg.token, none⟩,
      ⟨rfl, rfl, rfl, rfl, rfl, rfl⟩, fun t => rfl⟩

/-- C10: `Agent::members` decodes the response body as a single
`AgentMember` record, not a list: a JSON array body never decodes through
this operation, failing with `DecodeError` instead. -/
theorem members_rejects_array_body (wan : Bool) (cfg : Config) (t : Transport)
    (resp : HttpResponse) (elems : List Json)
    (ht : t
        { method := Method.GET, path := "/v1/agent/members",
          query := if wan then [("wan", "1")] else [], token := cfg.token,
          body := none } = .ok resp)
    (hst : resp.status = 200) (hb : resp.body = Json.arr elems) :
    decodeAgentMember (Json.arr elems) = none ∧
    agentMembers wan cfg t = .error ConsulError.DecodeError := by
  refine ⟨rfl, ?_⟩
  have e : agentMembers wan cfg t
      = (handleRead decodeAgentMember (t
          { method := Method.GET, path := "/v1/agent/members",
            query := if wan then [("wan", "1")] else [], token := cfg.token,
            body := none })).map Prod.fst := by
    cases wan <;> rfl
  rw [e, ht]
  have hr : handleRead decodeAgentMember (Except.ok resp)
      = classifyRead decodeAgentMember resp := rfl
  rw [hr]
  have hd : decodeAgentMember (Json.arr elems) = none := rfl
  simp [classifyRead, hst, hb, hd]
  rfl

/-- Witness for C10 against a concrete array-bodied 200 response. -/
theorem members_rejects_array_body_witness :
    decodeAgentMember (Json.arr [Json.obj []]) = none ∧
    agentMembers false cfgW transportArr = .error ConsulError.DecodeError :=
  members_rejects_array_body false cfgW transportArr respArr [Json.obj []] rfl rfl rfl

end Consul
